import Mathlib

/-!
Shallow embedding of the mysql-connector plugin's connection-lifecycle core
(`src/server/mysql-manager.ts` and the request handlers in `src/server/index.ts`),
together with theorems settling the frozen claims about it.

Conventions: JavaScript `Map<string, V>` values are embedded as association
lists `List (String × V)` with the usual get/set/delete operations;
timestamps (`Date.now()` milliseconds) are `Nat`; asynchronous effects
(driver probes, pool acquisition, metadata queries, repository writes,
pool closes) are passed in as explicit oracle values describing the
outcome the environment would produce, and each model function returns the
resulting state together with a trace of the effects it requested.
-/

namespace MySQLConnector

/-- ASCII lowercasing of one code point (the declared-type strings matched by
the `/i` regexes are ASCII, where JS case-insensitive matching is exactly
ASCII case folding). -/
def lowerCode (n : Nat) : Nat :=
  if 65 ≤ n && n ≤ 90 then n + 32 else n

/-- The code points of a string, lowercased. -/
def codesLower (s : String) : List Nat :=
  s.toList.map (fun c => lowerCode c.toNat)

/-- Anchored match: `pre` is a prefix of `s` (JS `match` with `^pattern`). -/
def codeStarts (s pre : List Nat) : Bool :=
  pre.isPrefixOf s

/-- `pat` occurs as a substring of `s` (JS `String.prototype.includes`,
case sensitive). -/
def strIncl (s pat : String) : Bool :=
  (s.toList.tails).any (fun suf => pat.toList.isPrefixOf suf)

/-- One row of a `DESCRIBE` result as consumed by `importTable`
(`column.Field`, `column.Type`, `column.Null`, `column.Key`,
`column.Default`; `Type` is renamed because it is a Lean keyword). -/
structure ColumnDesc where
  fieldName : String
  declaredType : String
  nullStr : String
  keyStr : String
  defaultVal : Option String
  deriving DecidableEq

/-- The declared-type classifier of `importTable`
(`mysql-manager.ts` lines 357–373): the if/else-if chain

* `/^int|^bigint|^smallint|^mediumint|^tinyint(?!\(1\))/i` → `integer`
* `/^decimal|^float|^double/i` → `float`
* `/^tinyint\(1\)$/i` → `boolean`
* `/^datetime|^timestamp/i` → `datetime`
* `.includes('date')` → `date`
* `.includes('time')` → `time`
* `.includes('json')` → `json`
* otherwise `string`.

The `/i` regexes are embedded by matching on the lowercased string; the
negative lookahead `tinyint(?!\(1\))` is "starts with `tinyint` but not
with `tinyint(1)`"; the `includes` tests are case sensitive, as in the
source. -/
def mapFieldType (t : String) : String :=
  let lt := codesLower t
  if codeStarts lt (codesLower "int") || codeStarts lt (codesLower "bigint") ||
     codeStarts lt (codesLower "smallint") || codeStarts lt (codesLower "mediumint") ||
     (codeStarts lt (codesLower "tinyint") && !(codeStarts lt (codesLower "tinyint(1)"))) then
    "integer"
  else if codeStarts lt (codesLower "decimal") || codeStarts lt (codesLower "float") ||
     codeStarts lt (codesLower "double") then
    "float"
  else if lt == codesLower "tinyint(1)" then
    "boolean"
  else if codeStarts lt (codesLower "datetime") || codeStarts lt (codesLower "timestamp") then
    "datetime"
  else if strIncl t "date" then
    "date"
  else if strIncl t "time" then
    "time"
  else if strIncl t "json" then
    "json"
  else
    "string"

/-- The aggregated result of `importTables`
(`results = { successful: [], failed: [] }`): successes carry
`{tableName, collectionName}`, failures `{tableName, error.message}`. -/
structure ImportOutcome where
  successful : List (String × String)
  failed : List (String × String)
  deriving DecidableEq

/-- The batching of `importTables` (`mysql-manager.ts` lines 462–466):
`for (let i = 0; i < tableNames.length; i += 3) batch = tableNames.slice(i, i + 3)`
— consecutive slices of at most `CONCURRENCY = 3` elements. -/
def chunks3 {α : Type} : List α → List (List α)
  | [] => []
  | [a] => [[a]]
  | [a, b] => [[a, b]]
  | a :: b :: c :: rest => [a, b, c] :: chunks3 rest

/-- The per-table body of `importTables` (lines 467–491): import the table
into collection `mysql_<tableName>`; on success push
`{tableName, collectionName}` onto `successful`, on a caught error push
`{tableName, error.message}` onto `failed`. The outcome of the underlying
`importTable` call is the oracle `f`. -/
def importStep (f : String → Except String Unit) (acc : ImportOutcome)
    (tableName : String) : ImportOutcome :=
  match f tableName with
  | .ok _ => { acc with successful := acc.successful ++ [(tableName, "mysql_" ++ tableName)] }
  | .error e => { acc with failed := acc.failed ++ [(tableName, e)] }

/-- `importTables` (lines 450–503): fold the per-table step over each batch
of at most 3 in order, batches processed one after the other. (The
in-flight concurrency inside one batch is collapsed to an arbitrary fixed
order; the claims proved below are insensitive to intra-batch order.) -/
def importTablesModel (f : String → Except String Unit)
    (tableNames : List String) : ImportOutcome :=
  (chunks3 tableNames).foldl (fun acc batch => batch.foldl (importStep f) acc) ⟨[], []⟩

/-- `Except.isOk` as a plain Boolean discriminator. -/
def exceptOk {ε α : Type} : Except ε α → Bool
  | .ok _ => true
  | .error _ => false

/-- The error message of a failed per-table import (dummy on success;
only ever applied to failures below). -/
def errOf {α : Type} : Except String α → String
  | .error e => e
  | .ok _ => ""

/-- Successes a straight left-to-right run would record. -/
def succOf (f : String → Except String Unit) (l : List String) : List (String × String) :=
  (l.filter (fun t => exceptOk (f t))).map (fun t => (t, "mysql_" ++ t))

/-- Failures a straight left-to-right run would record. -/
def failOf (f : String → Except String Unit) (l : List String) : List (String × String) :=
  (l.filter (fun t => !exceptOk (f t))).map (fun t => (t, errOf (f t)))

/-- Association-list embedding of `Map.prototype.get`. -/
def mapGet {α : Type} (m : List (String × α)) (k : String) : Option α :=
  (m.find? (fun p => p.1 == k)).map (fun p => p.2)

/-- Association-list embedding of `Map.prototype.set`: replace the value at
an existing key in place, otherwise append a new binding. -/
def mapSet {α : Type} (m : List (String × α)) (k : String) (v : α) :
    List (String × α) :=
  if m.any (fun p => p.1 == k) then
    m.map (fun p => if p.1 == k then (k, v) else p)
  else
    m ++ [(k, v)]

/-- Association-list embedding of `Map.prototype.delete` (total: deleting an
absent key is a no-op and never throws). -/
def mapDelete {α : Type} (m : List (String × α)) (k : String) :
    List (String × α) :=
  m.filter (fun p => p.1 != k)

/-- Cached `{columns, indexes}` pair returned by the metadata queries
(`DESCRIBE ??` and `SHOW INDEX FROM ??`); index rows are kept abstract as
strings. -/
structure TableSchema where
  columns : List ColumnDesc
  indexes : List String
  deriving DecidableEq

/-- One `tableSchemaCache` entry: `{ timestamp, schema }`. -/
structure CacheEntry where
  timestamp : Nat
  schema : TableSchema
  deriving DecidableEq

/-- `SCHEMA_CACHE_TTL = 10 * 60 * 1000` (10 minutes, in milliseconds). -/
def SCHEMA_CACHE_TTL : Nat := 10 * 60 * 1000

/-- Oracle for the effects of a cache-miss refresh inside `getTableSchema`:
the outcome of `getConnection` (pool acquisition) and of the two metadata
queries, as the environment would produce them. -/
structure SchemaFetchOracle where
  poolRes : Except String Unit
  describeRes : Except String (List ColumnDesc)
  indexRes : Except String (List String)

/-- Trace of one `getTableSchema` call: the value the promise resolves with
(`none` embeds JavaScript `undefined`), the cache afterwards, and how many
pool acquisitions / `DESCRIBE` / `SHOW INDEX` round-trips were issued. -/
structure SchemaFetchTrace where
  result : Option TableSchema
  cache : List (String × CacheEntry)
  poolAcquisitions : Nat
  describeQueries : Nat
  indexQueries : Nat
  deriving DecidableEq

/-- The miss path of `getTableSchema` (lines 646–668): acquire a pool, run
`DESCRIBE ??` then `SHOW INDEX FROM ??`, store `{timestamp: now, schema}`
under the key and return the schema. Any thrown error lands in the empty
`catch` block (line 666: `// 错误处理代码...`), so the call resolves with
`undefined` and the cache is left untouched. -/
def schemaFetchMiss (cache : List (String × CacheEntry)) (now : Nat)
    (cacheKey : String) (oracle : SchemaFetchOracle) : SchemaFetchTrace :=
  match oracle.poolRes with
  | .error _ => ⟨none, cache, 1, 0, 0⟩
  | .ok _ =>
    match oracle.describeRes with
    | .error _ => ⟨none, cache, 1, 1, 0⟩
    | .ok cols =>
      match oracle.indexRes with
      | .error _ => ⟨none, cache, 1, 1, 1⟩
      | .ok idxs =>
        let schema : TableSchema := ⟨cols, idxs⟩
        ⟨some schema, mapSet cache cacheKey ⟨now, schema⟩, 1, 1, 1⟩

/-- `getTableSchema` (lines 630–668): key `` `${connectionId}:${tableName}` ``;
a present entry younger than `SCHEMA_CACHE_TTL` is returned as is with no
network effect; otherwise the miss path runs. -/
def getTableSchemaModel (cache : List (String × CacheEntry)) (now : Nat)
    (connectionId tableName : String) (oracle : SchemaFetchOracle) :
    SchemaFetchTrace :=
  let cacheKey := connectionId ++ ":" ++ tableName
  match mapGet cache cacheKey with
  | some e =>
    if now - e.timestamp < SCHEMA_CACHE_TTL then
      ⟨some e.schema, cache, 0, 0, 0⟩
    else
      schemaFetchMiss cache now cacheKey oracle
  | none => schemaFetchMiss cache now cacheKey oracle

/-- One `connections` registry entry (`MySQLConnection` interface,
`mysql-manager.ts` lines 15–27). The live pool handle is abstracted to an
opaque numeric identifier; `connection = none` embeds the absent /
`undefined` handle. -/
structure MySQLConnection where
  id : String
  name : Option String
  database : String
  host : String
  port : Nat
  username : String
  password : String
  connection : Option Nat
  createdAt : Option Nat
  lastUsed : Option Nat
  deriving DecidableEq

/-- The in-memory `connections : Map<string, MySQLConnection>`. -/
abbrev Registry := List (String × MySQLConnection)

/-- One persisted `mysql_connections` record as written by `connect`
(`connectionData`, lines 125–134: the password field is the encrypted
form). -/
structure StoredRecord where
  id : String
  name : String
  database : String
  host : String
  port : Nat
  username : String
  password : String
  createdAt : Nat
  deriving DecidableEq

/-- An error thrown by the mysql2 driver or another collaborator: an
optional `error.code` plus `error.message`. -/
structure DriverError where
  code : Option String
  message : String
  deriving DecidableEq

/-- The error-classification chain of `connect`'s catch block
(lines 168–179): driver error codes first, generic wrap otherwise. -/
def classifyConnectError (databaseName : String) (e : DriverError) : String :=
  if e.code == some "ECONNREFUSED" then
    "无法连接到MySQL服务器: 连接被拒绝. 请检查主机名和端口是否正确."
  else if e.code == some "ER_ACCESS_DENIED_ERROR" then
    "访问被拒绝: 用户名或密码不正确."
  else if e.code == some "ER_BAD_DB_ERROR" then
    "数据库 \"" ++ databaseName ++ "\" 不存在."
  else if e.code == some "ETIMEDOUT" then
    "连接超时: 无法在指定时间内连接到服务器."
  else
    "无法连接到MySQL数据库: " ++ e.message

/-- The credential fields accepted by `connect`
(`Omit<MySQLConnection, 'id' | 'connection'>`). -/
structure ConnectInfo where
  name : Option String
  database : String
  host : String
  port : Nat
  username : String
  password : String
  deriving DecidableEq

/-- The default display name `` `${host}:${port}/${database}` ``. -/
def defaultName (i : ConnectInfo) : String :=
  i.host ++ ":" ++ toString i.port ++ "/" ++ i.database

/-- `connectionInfo.name || default`: JS `||` treats the empty string and
`undefined` alike as falsy. -/
def resolvedName (i : ConnectInfo) : String :=
  match i.name with
  | some n => if n = "" then defaultName i else n
  | none => defaultName i

/-- `connectionData` (lines 125–134): the record persisted to the
credential store, carrying the encrypted password and the resolved display
name. -/
def connRecordOf (info : ConnectInfo) (enc freshId : String) (now : Nat) :
    StoredRecord :=
  ⟨freshId, resolvedName info, info.database, info.host, info.port,
    info.username, enc, now⟩

/-- The in-memory entry `connect` creates (lines 152–156): the spread of
`connectionData` with the plaintext password restored for reconnection and
**no** `connection` field. -/
def connEntryOf (info : ConnectInfo) (freshId : String) (now : Nat) :
    MySQLConnection :=
  { id := freshId, name := some (resolvedName info),
    database := info.database, host := info.host, port := info.port,
    username := info.username, password := info.password,
    connection := none, createdAt := some now, lastUsed := none }

/-- `connect` (lines 94–181). Oracles: `probe` is the outcome of the
short-lived test connection (`createConnection` + `connect()` + `end()`),
`encrypt` the outcome of `encryptPassword` (which can throw, see the
cipher model below), `freshId` the value produced by `uuidv4()`,
`storeCreate` the outcome of the credential-repository `create`, and `now`
the clock. Returns the thrown-or-returned value, the registry afterwards,
and the persisted store afterwards. On success the in-memory entry is the
spread of `connectionData` with the plaintext password put back and **no**
`connection` field — no live handle is stored (lines 152–156). -/
def connectModel (reg : Registry) (store : List StoredRecord) (info : ConnectInfo)
    (probe : Except DriverError Unit) (encrypt : String → Except DriverError String)
    (freshId : String) (storeCreate : Except String Unit) (now : Nat) :
    Except String String × Registry × List StoredRecord :=
  match probe with
  | .error e => (.error (classifyConnectError info.database e), reg, store)
  | .ok _ =>
    match encrypt info.password with
    | .error e => (.error (classifyConnectError info.database e), reg, store)
    | .ok enc =>
      match storeCreate with
      | .error e =>
        (.error (classifyConnectError info.database
          ⟨none, "无法保存连接信息: " ++ e⟩), reg, store)
      | .ok _ =>
        (.ok freshId, mapSet reg freshId (connEntryOf info freshId now),
          store ++ [connRecordOf info enc freshId now])

/-- One row of the `listConnections` response (lines 242–251). -/
structure ConnectionSummary where
  id : String
  name : Option String
  host : String
  port : Nat
  database : String
  username : String
  status : String
  createdAt : Option Nat
  deriving DecidableEq

/-- The per-entry projection used by `listConnections`:
`status` is `'connected'` iff a live handle is present. -/
def mkSummary (c : MySQLConnection) : ConnectionSummary :=
  { id := c.id, name := c.name, host := c.host, port := c.port,
    database := c.database, username := c.username,
    status := if c.connection.isSome then "connected" else "disconnected",
    createdAt := c.createdAt }

/-- `listConnections` (lines 239–261): map the projection over all registry
values; never touches the network. -/
def listConnectionsModel (reg : Registry) : List ConnectionSummary :=
  reg.map (fun p => mkSummary p.2)

/-- A response produced by one of the request handlers in
`src/server/index.ts`: either `ctx.body = { data }` or
`ctx.status`/`ctx.body = { errors: [...] }`. -/
inductive HandlerResult (α : Type) where
  | ok (data : α)
  | err (status : Nat) (messages : List String)
  deriving DecidableEq

/-- An error surfaced to `handleServerError`: message plus optional
`error.status`. -/
structure ApiError where
  message : String
  status : Option Nat
  deriving DecidableEq

/-- `handleServerError` (`index.ts` lines 27–52): `ctx.status` becomes
`error.status` when present, else 400, with the message in the errors
body. -/
def handleServerError {α : Type} (e : ApiError) : HandlerResult α :=
  .err (e.status.getD 400) [e.message]

/-- The `connect` action handler (`index.ts` lines 368–392): when
`isShuttingDown()` it replies 503 immediately; otherwise it invokes
`mysqlManager.connect` (its outcome is the oracle `mgrConnect`). The
second component counts manager invocations. -/
def connectHandler (shuttingDown : Bool)
    (mgrConnect : Except ApiError String) : HandlerResult String × Nat :=
  if shuttingDown then
    (.err 503 ["系统正在关闭，无法创建新连接"], 0)
  else
    match mgrConnect with
    | .ok id => (.ok id, 1)
    | .error e => (handleServerError e, 1)

/-- The `listTables` action handler (`index.ts` lines 422–439). -/
def listTablesHandler (shuttingDown : Bool)
    (mgrListTables : Except ApiError (List String)) :
    HandlerResult (List String) × Nat :=
  if shuttingDown then
    (.err 503 ["系统正在关闭，无法获取表列表"], 0)
  else
    match mgrListTables with
    | .ok tables => (.ok tables, 1)
    | .error e => (handleServerError e, 1)

/-- The `importTables` action handler (`index.ts` lines 458–476). -/
def importTablesHandler (shuttingDown : Bool)
    (mgrImportTables : Except ApiError ImportOutcome) :
    HandlerResult ImportOutcome × Nat :=
  if shuttingDown then
    (.err 503 ["系统正在关闭，无法批量导入表"], 0)
  else
    match mgrImportTables with
    | .ok outcome => (.ok outcome, 1)
    | .error e => (handleServerError e, 1)

/-- The value `disconnect` resolves with or throws
(`找不到指定的连接` embeds as `notFound`, the wrapped outer-catch error as
`failed`). -/
inductive DisconnectResult where
  | success
  | notFound
  | failed (message : String)
  deriving DecidableEq

/-- `disconnect` (lines 183–237). `closeRes` is the outcome of
`connection.end()` when a live handle exists; `deleteRes` the outcome of
the credential-repository `destroy`. A failed `destroy` is caught and only
logged (lines 209–214), so it affects neither the result nor the registry;
a failed close reaches the outer catch, which still deletes the in-memory
entry before rethrowing (lines 228–235). -/
def disconnectModel (reg : Registry) (connectionId : String)
    (closeRes : Except String Unit) (deleteRes : Except String Unit) :
    DisconnectResult × Registry :=
  match mapGet reg connectionId with
  | none => (.notFound, reg)
  | some info =>
    match info.connection with
    | some _ =>
      match closeRes with
      | .error e => (.failed ("断开连接时发生错误: " ++ e), mapDelete reg connectionId)
      | .ok _ =>
        match deleteRes with
        | _ => (.success, mapDelete reg connectionId)
    | none =>
      match deleteRes with
      | _ => (.success, mapDelete reg connectionId)

/-- How one pool close requested by `closeAllConnections` settles in the
environment: `pool.end()` resolves, rejects (its `.catch` logs the error),
or hangs past the 5-second race. -/
inductive CloseOutcome where
  | closed
  | failedClose (msg : String)
  | timedOut
  deriving DecidableEq

/-- The per-close error logging of `closeAllConnections` (lines 538–544):
the `.catch` on `pool.end()` logs a rejection; a close that merely times
out produces no log — the 5-second timer resolves the race silently. -/
def closeLogOf (connectionId : String) : CloseOutcome → List String
  | .failedClose msg =>
    ["[mysql-connector] Error closing connection " ++ connectionId ++ ": " ++ msg]
  | _ => []

/-- The entry loop of `closeAllConnections` (lines 530–554): for every
entry with a live handle push a close raced against a 5000 ms timeout and
collect its error log (if any); every entry is deleted from the map
regardless. Returns (closes requested with their timeout budget, error
logs). -/
def closeAllLoop (outcome : String → CloseOutcome) :
    Registry → List (String × Nat) × List String
  | [] => ([], [])
  | p :: rest =>
    let r := closeAllLoop outcome rest
    match p.2.connection with
    | some _ => ((p.1, 5000) :: r.1, closeLogOf p.1 (outcome p.1) ++ r.2)
    | none => r

/-- Trace of one `closeAllConnections` run. -/
structure CloseAllTrace where
  closeRequests : List (String × Nat)
  errorLogs : List String
  registry : Registry
  deriving DecidableEq

/-- `closeAllConnections` (lines 523–565): run the entry loop, await all
requested closes (`Promise.allSettled`), then `connections.clear()` —
the registry is empty afterwards whatever the close outcomes were. -/
def closeAllConnectionsModel (reg : Registry) (outcome : String → CloseOutcome) :
    CloseAllTrace :=
  let r := closeAllLoop outcome reg
  ⟨r.1, r.2, []⟩

/-- `IDLE_TIMEOUT = 60 * 60 * 1000` (1 hour, in milliseconds). -/
def IDLE_TIMEOUT : Nat := 60 * 60 * 1000

/-- The per-entry body of `cleanupIdleConnections` (lines 606–619):
`if (connectionInfo.connection && connectionInfo.lastUsed)` — note that a
`lastUsed` of `0` is falsy in JavaScript — then
`if ((now - connectionInfo.lastUsed) > IDLE_TIMEOUT)` close the pool and
clear only the `connection` field; a close error is caught and logged,
leaving the handle in place. All other entries are returned unchanged. -/
def cleanupEntry (now : Nat) (closeRes : String → Except String Unit)
    (connectionId : String) (e : MySQLConnection) : MySQLConnection :=
  match e.connection, e.lastUsed with
  | some _, some t =>
    if t != 0 then
      if IDLE_TIMEOUT < now - t then
        match closeRes connectionId with
        | .ok _ => { e with connection := none }
        | .error _ => e
      else e
    else e
  | _, _ => e

/-- `cleanupIdleConnections` (lines 601–620): sweep every registry entry
through `cleanupEntry`. The function performs no credential-repository
operation at all, embedded here by passing the persisted store through
unchanged. -/
def cleanupIdleConnectionsModel (now : Nat) (closeRes : String → Except String Unit)
    (reg : Registry) (store : List StoredRecord) : Registry × List StoredRecord :=
  (reg.map (fun p => (p.1, cleanupEntry now closeRes p.1 p.2)), store)

/-- UTF-8 encoding of one code point (what `Buffer.from(string)` yields per
character). -/
def utf8Encode (c : Char) : List Nat :=
  let n := c.toNat
  if n < 128 then [n]
  else if n < 2048 then [192 + n / 64, 128 + n % 64]
  else if n < 65536 then [224 + n / 4096, 128 + (n / 64) % 64, 128 + n % 64]
  else [240 + n / 262144, 128 + (n / 4096) % 64, 128 + (n / 64) % 64, 128 + n % 64]

/-- The UTF-8 bytes of a string (`Buffer.from(s)`). -/
def strBytes (s : String) : List Nat :=
  (s.toList.map utf8Encode).flatten

/-- The byte length of a string under UTF-8 (`Buffer.from(s).length`). -/
def byteLength (s : String) : Nat :=
  (strBytes s).length

/-- `ENCRYPTION_KEY = process.env.MYSQL_ENCRYPTION_KEY || 'your-fallback-key'`
(line 30); JS `||` falls back on an unset *or empty* variable. -/
def ENCRYPTION_KEY (env : Option String) : String :=
  match env with
  | some s => if s = "" then "your-fallback-key" else s
  | none => "your-fallback-key"

/-- The error `crypto.createCipheriv`/`createDecipheriv` throw when the key
byte length does not fit the algorithm (Node `ERR_CRYPTO_INVALID_KEYLEN`;
`aes-256-cbc` requires exactly 32 key bytes). -/
inductive CipherError where
  | invalidKeyLength
  deriving DecidableEq

/-- PKCS#7 padding to the 16-byte AES block size (what the Node cipher
applies between `update` and `final`). -/
def pkcs7Pad (bytes : List Nat) : List Nat :=
  let r := 16 - bytes.length % 16
  bytes ++ List.replicate r r

/-- Split a byte list into 16-byte blocks. -/
def toBlocks (l : List Nat) : List (List Nat) :=
  match l with
  | [] => []
  | b :: rest => (b :: rest.take 15) :: toBlocks (rest.drop 15)
termination_by l.length
decreasing_by
  simp only [List.length_drop, List.length_cons]
  omega

/-- Byte-wise xor of two equal-length blocks. -/
def xorBytes (a b : List Nat) : List Nat :=
  a.zipWith (fun x y => x ^^^ y) b

/-- CBC chaining over an abstract keyed block permutation `E`. -/
def cbcEncrypt (E : List Nat → List Nat) (iv : List Nat) :
    List (List Nat) → List (List Nat)
  | [] => []
  | blk :: rest =>
    let c := E (xorBytes blk iv)
    c :: cbcEncrypt E c rest

/-- Lowercase hex digit of a value below 16 (`Buffer.prototype.toString('hex')`
alphabet). -/
def hexDigitChar (n : Nat) : Char :=
  if n < 10 then Char.ofNat (48 + n) else Char.ofNat (87 + n)

/-- Two-digit lowercase hex of one byte. -/
def byteToHex (b : Nat) : List Char :=
  [hexDigitChar (b / 16), hexDigitChar (b % 16)]

/-- `Buffer.prototype.toString('hex')`. -/
def bytesToHex (bs : List Nat) : String :=
  String.mk ((bs.map byteToHex).flatten)

/-- `encryptPassword` (lines 505–511):
`crypto.createCipheriv('aes-256-cbc', Buffer.from(ENCRYPTION_KEY), iv)`
followed by `update`/`final` and `iv.toString('hex') + ':' + encrypted.toString('hex')`.
Node's `createCipheriv` validates the key **before** any encryption and
throws `ERR_CRYPTO_INVALID_KEYLEN` unless the key is exactly 32 bytes, so
the whole call throws in that case. The AES-256 block permutation itself
is kept abstract as the parameter `E` (keyed by the caller); `iv` is the
16-byte value of `crypto.randomBytes(16)`. -/
def encryptPasswordModel (E : List Nat → List Nat) (env : Option String)
    (iv : List Nat) (password : String) : Except CipherError String :=
  let key := ENCRYPTION_KEY env
  if byteLength key = 32 then
    .ok (bytesToHex iv ++ ":" ++
      bytesToHex ((cbcEncrypt E iv (toBlocks (pkcs7Pad (strBytes password)))).flatten))
  else
    .error .invalidKeyLength

/-! ## Helper lemmas -/

lemma foldl_importStep (f : String → Except String Unit) (l : List String)
    (acc : ImportOutcome) :
    l.foldl (importStep f) acc =
      ⟨acc.successful ++ succOf f l, acc.failed ++ failOf f l⟩ := by
  induction l generalizing acc with
  | nil => simp [succOf, failOf]
  | cons t rest ih =>
    cases hft : f t with
    | ok u =>
      simp only [List.foldl_cons, importStep, hft, ih, succOf, failOf,
        List.filter_cons, hft, exceptOk]
      simp [hft, exceptOk, succOf, failOf]
    | error e =>
      simp only [List.foldl_cons, importStep, hft, ih, succOf, failOf,
        List.filter_cons, hft, exceptOk]
      simp [hft, exceptOk, succOf, failOf, errOf]

lemma chunks3_foldl (f : String → Except String Unit) (l : List String)
    (acc : ImportOutcome) :
    (chunks3 l).foldl (fun acc batch => batch.foldl (importStep f) acc) acc =
      l.foldl (importStep f) acc := by
  induction l using chunks3.induct generalizing acc with
  | case1 => rfl
  | case2 a => rfl
  | case3 a b => rfl
  | case4 a b c rest ih =>
    simp only [chunks3, List.foldl_cons]
    exact ih _

lemma chunks3_length_le {α : Type} (l : List α) :
    ∀ c ∈ chunks3 l, c.length ≤ 3 := by
  induction l using chunks3.induct with
  | case1 => intro c hc; simp [chunks3] at hc
  | case2 a => intro c hc; simp [chunks3] at hc; simp [hc]
  | case3 a b => intro c hc; simp [chunks3] at hc; simp [hc]
  | case4 a b c rest ih =>
    intro d hd
    simp only [chunks3, List.mem_cons] at hd
    cases hd with
    | inl h => simp [h]
    | inr h => exact ih d h

lemma chunks3_join {α : Type} (l : List α) :
    (chunks3 l).flatten = l := by
  induction l using chunks3.induct with
  | case1 => rfl
  | case2 a => rfl
  | case3 a b => rfl
  | case4 a b c rest ih => simp [chunks3, ih]

lemma length_filter_not_add {α : Type} (p : α → Bool) (l : List α) :
    (l.filter p).length + (l.filter (fun a => !p a)).length = l.length := by
  induction l with
  | nil => rfl
  | cons a rest ih =>
    cases h : p a with
    | true => simp [List.filter_cons, h]; omega
    | false => simp [List.filter_cons, h]; omega

lemma mem_mapSet {α : Type} (m : List (String × α)) (k : String) (v : α) :
    (k, v) ∈ mapSet m k v := by
  unfold mapSet
  by_cases h : m.any (fun p => p.1 == k) = true
  · simp only [h, if_pos]
    rcases List.any_eq_true.mp h with ⟨p, hp, hpk⟩
    exact List.mem_map.mpr ⟨p, hp, by simp [hpk]⟩
  · simp only [h, if_neg, Bool.not_eq_true]
    simp

lemma mapGet_mapDelete {α : Type} (m : List (String × α)) (k : String) :
    mapGet (mapDelete m k) k = none := by
  unfold mapGet mapDelete
  induction m with
  | nil => rfl
  | cons p rest ih =>
    by_cases h : p.1 = k
    · have hne : (p.1 != k) = false := by simp [h]
      rw [List.filter_cons, hne]
      simp
    · have hne : (p.1 != k) = true := by simp [h]
      rw [List.filter_cons, hne, if_pos rfl,
        List.find?_cons_of_neg _ (by simp [h])]
      exact ih

lemma importTablesModel_eq (f : String → Except String Unit) (names : List String) :
    importTablesModel f names = ⟨succOf f names, failOf f names⟩ := by
  unfold importTablesModel
  rw [chunks3_foldl, foldl_importStep]
  simp

lemma getTableSchemaModel_miss (cache : List (String × CacheEntry)) (now : Nat)
    (cid tname : String) (oracle : SchemaFetchOracle)
    (hmiss : mapGet cache (cid ++ ":" ++ tname) = none ∨
      ∃ e, mapGet cache (cid ++ ":" ++ tname) = some e ∧
        SCHEMA_CACHE_TTL ≤ now - e.timestamp) :
    getTableSchemaModel cache now cid tname oracle =
      schemaFetchMiss cache now (cid ++ ":" ++ tname) oracle := by
  unfold getTableSchemaModel
  rcases hmiss with h | ⟨e, he, hold⟩
  · simp [h]
  · simp [he, Nat.not_lt.mpr hold]

lemma closeAllLoop_spec (outcome : String → CloseOutcome) (reg : Registry) :
    closeAllLoop outcome reg =
      ((reg.filter (fun p => p.2.connection.isSome)).map (fun p => (p.1, 5000)),
       ((reg.filter (fun p => p.2.connection.isSome)).map
         (fun p => closeLogOf p.1 (outcome p.1))).flatten) := by
  induction reg with
  | nil => rfl
  | cons p rest ih =>
    cases hc : p.2.connection with
    | some h =>
      have hs : p.2.connection.isSome = true := by rw [hc]; rfl
      simp [closeAllLoop, hc, ih, List.filter_cons, hs]
    | none =>
      have hs : p.2.connection.isSome = false := by rw [hc]; rfl
      simp [closeAllLoop, hc, ih, List.filter_cons, hs]

/-! ## Claim theorems -/

/-- C1: the type-mapping applied by `importTable` sends the declared types
`int(11)`, `tinyint(1)`, `decimal(10,2)`, `datetime`, `varchar(255)`,
`json` to `integer`, `boolean`, `float`, `datetime`, `string`, `json`
respectively; the integer family excludes only the single-bit `tinyint(1)`
encoding (other tinyint widths remain integer), and `timestamp` is caught
by the datetime rule, which is tested before the `date`/`time`/`json`
substring rules. -/
theorem mapFieldType_spec :
    mapFieldType "int(11)" = "integer" ∧
    mapFieldType "tinyint(1)" = "boolean" ∧
    mapFieldType "decimal(10,2)" = "float" ∧
    mapFieldType "datetime" = "datetime" ∧
    mapFieldType "varchar(255)" = "string" ∧
    mapFieldType "json" = "json" ∧
    mapFieldType "tinyint(2)" = "integer" ∧
    mapFieldType "timestamp" = "datetime" := by
  decide

/-- C2: `importTables` partitions the requested names into consecutive
chunks of at most 3 (`chunks3` reassembles to the input), and for every
per-table outcome oracle the successes are exactly the tables whose import
succeeded and the failures exactly those whose import threw (with the
caught error message), so each requested table lands in exactly one list
and the two lengths sum to the number of requests — one table's failure
never prevents any other table from being attempted and recorded. -/
theorem importTables_partition (f : String → Except String Unit)
    (names : List String) :
    (importTablesModel f names).successful = succOf f names ∧
    (importTablesModel f names).failed = failOf f names ∧
    (importTablesModel f names).successful.length +
      (importTablesModel f names).failed.length = names.length ∧
    (∀ t ∈ names,
      (exceptOk (f t) = true →
        (t, "mysql_" ++ t) ∈ (importTablesModel f names).successful) ∧
      (exceptOk (f t) = false →
        (t, errOf (f t)) ∈ (importTablesModel f names).failed)) ∧
    (chunks3 names).flatten = names ∧
    (∀ c ∈ chunks3 names, c.length ≤ 3) := by
  have h1 := importTablesModel_eq f names
  refine ⟨by rw [h1], by rw [h1], ?_, ?_, chunks3_join names, chunks3_length_le names⟩
  · rw [h1]
    simpa [succOf, failOf] using length_filter_not_add (fun t => exceptOk (f t)) names
  · intro t ht
    constructor
    · intro hok
      rw [h1]
      exact List.mem_map.mpr ⟨t, List.mem_filter.mpr ⟨ht, hok⟩, rfl⟩
    · intro hko
      rw [h1]
      exact List.mem_map.mpr ⟨t, List.mem_filter.mpr ⟨ht, by simp [hko]⟩, rfl⟩

/-- The 7-table scenario of the spec's test property: names `t1 … t7`,
with `t3` simulated to fail. -/
def namesW : List String := ["t1", "t2", "t3", "t4", "t5", "t6", "t7"]

/-- Per-table import double: `t3` throws, everything else succeeds. -/
def importW : String → Except String Unit :=
  fun t => if t = "t3" then Except.error "boom" else Except.ok ()

/-- Witness for C2 at the 7-table scenario. -/
theorem importTables_partition_witness :
    ("t3" ∈ namesW) ∧
    (importTablesModel importW namesW).successful.length +
      (importTablesModel importW namesW).failed.length = namesW.length ∧
    ("t3", "boom") ∈ (importTablesModel importW namesW).failed := by
  have h := importTables_partition importW namesW
  refine ⟨by decide, h.2.2.1, ?_⟩
  have hw : importW "t3" = Except.error "boom" := rfl
  have h4 := (h.2.2.2.1 "t3" (by decide)).2 (by rw [hw]; rfl)
  rw [hw] at h4
  exact h4

/-- C3: `getTableSchema` returns a present cache entry younger than the
10-minute TTL as is — no pool acquisition and no metadata query — and on
an absent or expired entry it acquires a pool once and (when the two
queries succeed) runs `DESCRIBE` and `SHOW INDEX` exactly once each,
storing the fetched schema under the key with the fresh timestamp `now`. -/
theorem getTableSchema_cache_contract (cache : List (String × CacheEntry))
    (now : Nat) (cid tname : String) (oracle : SchemaFetchOracle) :
    (∀ e, mapGet cache (cid ++ ":" ++ tname) = some e →
      now - e.timestamp < SCHEMA_CACHE_TTL →
      getTableSchemaModel cache now cid tname oracle =
        ⟨some e.schema, cache, 0, 0, 0⟩) ∧
    ((mapGet cache (cid ++ ":" ++ tname) = none ∨
      ∃ e, mapGet cache (cid ++ ":" ++ tname) = some e ∧
        SCHEMA_CACHE_TTL ≤ now - e.timestamp) →
      (getTableSchemaModel cache now cid tname oracle).poolAcquisitions = 1 ∧
      ∀ cols idxs, oracle.poolRes = .ok () → oracle.describeRes = .ok cols →
        oracle.indexRes = .ok idxs →
        getTableSchemaModel cache now cid tname oracle =
          ⟨some ⟨cols, idxs⟩,
            mapSet cache (cid ++ ":" ++ tname) ⟨now, ⟨cols, idxs⟩⟩, 1, 1, 1⟩) := by
  constructor
  · intro e he hfresh
    unfold getTableSchemaModel
    simp [he, hfresh]
  · intro hmiss
    rw [getTableSchemaModel_miss cache now cid tname oracle hmiss]
    constructor
    · cases hp : oracle.poolRes with
      | error e => simp [schemaFetchMiss, hp]
      | ok u =>
        cases hd : oracle.describeRes with
        | error e => simp [schemaFetchMiss, hp, hd]
        | ok cols =>
          cases hi : oracle.indexRes with
          | error e => simp [schemaFetchMiss, hp, hd, hi]
          | ok idxs => simp [schemaFetchMiss, hp, hd, hi]
    · intro cols idxs hp hd hi
      simp [schemaFetchMiss, hp, hd, hi]

/-- A concrete schema for the cache witnesses. -/
def schemaW : TableSchema :=
  ⟨[⟨"id", "int(11)", "NO", "PRI", none⟩], ["PRIMARY"]⟩

/-- A cache holding a fresh entry for `conn1:orders`. -/
def cacheW : List (String × CacheEntry) := [("conn1:orders", ⟨0, schemaW⟩)]

/-- An oracle whose pool acquisition and metadata queries all succeed. -/
def oracleOkW : SchemaFetchOracle := ⟨.ok (), .ok [], .ok []⟩

/-- Witness for C3: a fresh hit is served from the cache with no network
effect, and a miss on a different key fetches once and stores with the
fresh timestamp. -/
theorem getTableSchema_cache_contract_witness :
    mapGet cacheW ("conn1" ++ ":" ++ "orders") = some ⟨0, schemaW⟩ ∧
    getTableSchemaModel cacheW 0 "conn1" "orders" oracleOkW =
      ⟨some schemaW, cacheW, 0, 0, 0⟩ ∧
    getTableSchemaModel cacheW 0 "other" "t" oracleOkW =
      ⟨some ⟨[], []⟩, mapSet cacheW ("other" ++ ":" ++ "t") ⟨0, ⟨[], []⟩⟩, 1, 1, 1⟩ := by
  have h := getTableSchema_cache_contract cacheW 0 "conn1" "orders" oracleOkW
  have h2 := getTableSchema_cache_contract cacheW 0 "other" "t" oracleOkW
  refine ⟨by decide, h.1 ⟨0, schemaW⟩ (by decide) (by decide), ?_⟩
  exact (h2.2 (Or.inl (by decide))).2 [] [] rfl rfl rfl

/-- C4: with the shutdown flag set, the `connect`, `listTables` and
`importTables` handlers reply 503 with the shutting-down error body and
never invoke the manager (invocation count 0), whatever the manager
would have produced — so no network operation or timeout is involved. -/
theorem shutdown_rejects_immediately (mc : Except ApiError String)
    (ml : Except ApiError (List String)) (mi : Except ApiError ImportOutcome) :
    connectHandler true mc = (.err 503 ["系统正在关闭，无法创建新连接"], 0) ∧
    listTablesHandler true ml = (.err 503 ["系统正在关闭，无法获取表列表"], 0) ∧
    importTablesHandler true mi = (.err 503 ["系统正在关闭，无法批量导入表"], 0) :=
  ⟨rfl, rfl, rfl⟩

/-- C5: when the probe succeeds, the password encrypts, and the
credential-store write succeeds, `connect` returns the generated (non-empty)
id and the registry entry it creates carries no live handle, so a
subsequent `listConnections` reports that id with status `disconnected`. -/
theorem connect_disconnected_entry (reg : Registry) (store : List StoredRecord)
    (info : ConnectInfo) (encrypt : String → Except DriverError String)
    (freshId : String) (now : Nat) (enc : String)
    (henc : encrypt info.password = .ok enc) (hid : freshId ≠ "") :
    (connectModel reg store info (.ok ()) encrypt freshId (.ok ()) now).1 =
      .ok freshId ∧
    freshId ≠ "" ∧
    ∃ s ∈ listConnectionsModel
        (connectModel reg store info (.ok ()) encrypt freshId (.ok ()) now).2.1,
      s.id = freshId ∧ s.status = "disconnected" := by
  have hmodel : connectModel reg store info (.ok ()) encrypt freshId (.ok ()) now =
      (.ok freshId, mapSet reg freshId (connEntryOf info freshId now),
        store ++ [connRecordOf info enc freshId now]) := by
    unfold connectModel
    rw [henc]
  rw [hmodel]
  refine ⟨rfl, hid, ?_⟩
  refine ⟨mkSummary (connEntryOf info freshId now), ?_, rfl, rfl⟩
  exact List.mem_map.mpr
    ⟨(freshId, connEntryOf info freshId now), mem_mapSet reg freshId _, rfl⟩

/-- Concrete credentials for the C5 witness. -/
def infoW : ConnectInfo := ⟨some "shop db", "shop", "db1", 3306, "u", "pw"⟩

/-- Witness for C5 at concrete credentials and oracles. -/
theorem connect_disconnected_entry_witness :
    (connectModel [] [] infoW (.ok ()) (fun _ => Except.ok "aa") "id-1" (.ok ()) 0).1 =
      .ok "id-1" ∧
    ∃ s ∈ listConnectionsModel
        (connectModel [] [] infoW (.ok ()) (fun _ => Except.ok "aa") "id-1" (.ok ()) 0).2.1,
      s.id = "id-1" ∧ s.status = "disconnected" := by
  have h := connect_disconnected_entry [] [] infoW (fun _ => Except.ok "aa")
    "id-1" 0 "aa" rfl (by decide)
  exact ⟨h.1, h.2.2⟩

/-- C6: `disconnect` on an unknown id fails with the not-found error and
leaves the registry untouched; on a known id whose close does not throw
(no live handle, or the close resolves) it succeeds and removes the
in-memory entry *whatever the persisted-record delete returned*, so a
second `disconnect` on the same id yields not-found — the registry map
operations are total and retrying after a failed delete is safe. -/
theorem disconnect_idempotent (reg : Registry) (cid : String)
    (c d c2 d2 : Except String Unit) :
    (mapGet reg cid = none → disconnectModel reg cid c d = (.notFound, reg)) ∧
    (∀ info, mapGet reg cid = some info →
      (info.connection = none ∨ c = .ok ()) →
      disconnectModel reg cid c d = (.success, mapDelete reg cid) ∧
      mapGet (mapDelete reg cid) cid = none ∧
      disconnectModel (mapDelete reg cid) cid c2 d2 =
        (.notFound, mapDelete reg cid)) := by
  constructor
  · intro h
    simp [disconnectModel, h]
  · intro info hget hc
    have h2 : disconnectModel (mapDelete reg cid) cid c2 d2 =
        (.notFound, mapDelete reg cid) := by
      simp [disconnectModel, mapGet_mapDelete]
    refine ⟨?_, mapGet_mapDelete reg cid, h2⟩
    rcases hc with hnone | hok
    · simp [disconnectModel, hget, hnone]
    · cases hconn : info.connection with
      | none => simp [disconnectModel, hget, hconn]
      | some p => simp [disconnectModel, hget, hconn, hok]

/-- A registry entry with a live handle for the C6 witness. -/
def entryLiveW : MySQLConnection :=
  { id := "x1", name := none, database := "db", host := "h", port := 3306,
    username := "u", password := "p", connection := some 3,
    createdAt := some 0, lastUsed := some 10 }

/-- Witness for C6: disconnecting `x1` with a failing record delete still
succeeds and empties the entry; the retry reports not-found. -/
theorem disconnect_idempotent_witness :
    disconnectModel [("x1", entryLiveW)] "x1" (.ok ()) (.error "db down") =
      (.success, mapDelete [("x1", entryLiveW)] "x1") ∧
    disconnectModel (mapDelete [("x1", entryLiveW)] "x1") "x1" (.ok ()) (.ok ()) =
      (.notFound, mapDelete [("x1", entryLiveW)] "x1") := by
  have h := (disconnect_idempotent [("x1", entryLiveW)] "x1"
    (.ok ()) (.error "db down") (.ok ()) (.ok ())).2 entryLiveW (by decide)
    (Or.inr rfl)
  exact ⟨h.1, h.2.2⟩

/-- The live-handle entry used in the C7 counterexample. -/
def entryCloseW : MySQLConnection :=
  { id := "c1", name := none, database := "db", host := "h", port := 3306,
    username := "u", password := "p", connection := some 0,
    createdAt := none, lastUsed := none }

/-- The registry used in the C7 counterexample: one entry with a live
handle. -/
def regCloseW : Registry := [("c1", entryCloseW)]

/-- C7 counterexample: with the single live connection `c1` whose close
times out, `closeAllConnections` does request its close (with the 5-second
budget) but produces **no** log recording the timeout — the error-log
trace is empty, refuting the claim that any close that timed out is
logged (only rejected closes are logged, by the `.catch` on
`pool.end()`; the 5-second timer resolves the race silently). -/
theorem closeAll_timeout_unlogged :
    (closeAllConnectionsModel regCloseW (fun _ => .timedOut)).closeRequests =
      [("c1", 5000)] ∧
    (closeAllConnectionsModel regCloseW (fun _ => .timedOut)).errorLogs = [] := by
  exact ⟨rfl, rfl⟩

/-- C7 (amended): `closeAllConnections` requests a close — raced against an
individual 5000 ms timeout — for exactly the registry entries holding a
live handle, awaits them all, logs precisely the closes that failed with
an error (a close that merely times out is abandoned without a
per-connection log), and leaves the registry map empty regardless of the
close outcomes. -/
theorem closeAll_spec (reg : Registry) (outcome : String → CloseOutcome) :
    (closeAllConnectionsModel reg outcome).closeRequests =
      (reg.filter (fun p => p.2.connection.isSome)).map (fun p => (p.1, 5000)) ∧
    (closeAllConnectionsModel reg outcome).errorLogs =
      ((reg.filter (fun p => p.2.connection.isSome)).map
        (fun p => closeLogOf p.1 (outcome p.1))).flatten ∧
    (closeAllConnectionsModel reg outcome).registry = [] := by
  have h := closeAllLoop_spec outcome reg
  unfold closeAllConnectionsModel
  rw [h]
  exact ⟨rfl, rfl, rfl⟩

/-- C8: the idle sweep touches neither the persisted store nor the set of
registry keys; an entry with a live handle and a (positive) last-used
timestamp strictly older than one hour whose close succeeds is replaced by
the same record with only its handle cleared (every other field verbatim,
still registered); an entry with no handle, or one used within the last
hour, is left entirely unchanged. -/
theorem cleanupIdle_spec (now : Nat) (closeRes : String → Except String Unit)
    (reg : Registry) (store : List StoredRecord) :
    (cleanupIdleConnectionsModel now closeRes reg store).2 = store ∧
    ((cleanupIdleConnectionsModel now closeRes reg store).1).map (fun p => p.1) =
      reg.map (fun p => p.1) ∧
    (∀ p ∈ reg, ∀ h t, p.2.connection = some h → p.2.lastUsed = some t →
      0 < t → IDLE_TIMEOUT < now - t → closeRes p.1 = .ok () →
      (p.1, { p.2 with connection := none }) ∈
        (cleanupIdleConnectionsModel now closeRes reg store).1) ∧
    (∀ p ∈ reg, (p.2.connection = none ∨
        ∃ t, p.2.lastUsed = some t ∧ now - t ≤ IDLE_TIMEOUT) →
      p ∈ (cleanupIdleConnectionsModel now closeRes reg store).1) := by
  refine ⟨rfl, ?_, ?_, ?_⟩
  · simp [cleanupIdleConnectionsModel]
  · intro p hp h t hconn hlast ht hidle hclose
    have he : cleanupEntry now closeRes p.1 p.2 = { p.2 with connection := none } := by
      unfold cleanupEntry
      rw [hconn, hlast]
      simp [Nat.pos_iff_ne_zero.mp ht, hidle, hclose, hlast]
    exact List.mem_map.mpr ⟨p, hp, by rw [he]⟩
  · intro p hp hcase
    have he : cleanupEntry now closeRes p.1 p.2 = p.2 := by
      rcases hcase with hconn | ⟨t, hlast, hle⟩
      · unfold cleanupEntry
        rw [hconn]
      · cases hconn : p.2.connection with
        | none =>
          unfold cleanupEntry
          rw [hconn]
        | some h =>
          unfold cleanupEntry
          rw [hconn, hlast]
          by_cases ht0 : t = 0
          · simp [ht0]
          · simp [ht0, Nat.not_lt.mpr hle]
    exact List.mem_map.mpr ⟨p, hp, by rw [he]⟩

/-- An entry idle for more than one hour at `now = 4000001`. -/
def entryIdleW : MySQLConnection :=
  { id := "a", name := none, database := "db", host := "h", port := 3306,
    username := "u", password := "p", connection := some 7,
    createdAt := some 1, lastUsed := some 1000 }

/-- An entry used within the last hour at `now = 4000001`. -/
def entryFreshW : MySQLConnection :=
  { id := "b", name := none, database := "db", host := "h", port := 3306,
    username := "u", password := "p", connection := some 8,
    createdAt := some 1, lastUsed := some 4000000 }

/-- The registry for the C8 witness. -/
def regIdleW : Registry := [("a", entryIdleW), ("b", entryFreshW)]

/-- Witness for C8: at `now = 4000001` the idle entry `a` loses only its
handle, the fresh entry `b` is untouched, and the store is untouched. -/
theorem cleanupIdle_spec_witness :
    (cleanupIdleConnectionsModel 4000001 (fun _ => Except.ok ()) regIdleW []).2 = [] ∧
    ("a", { entryIdleW with connection := none }) ∈
      (cleanupIdleConnectionsModel 4000001 (fun _ => Except.ok ()) regIdleW []).1 ∧
    ("b", entryFreshW) ∈
      (cleanupIdleConnectionsModel 4000001 (fun _ => Except.ok ()) regIdleW []).1 := by
  have h := cleanupIdle_spec 4000001 (fun _ => Except.ok ()) regIdleW []
  refine ⟨h.1, ?_, ?_⟩
  · exact h.2.2.1 ("a", entryIdleW) (by decide) 7 1000 rfl rfl (by decide)
      (by decide) rfl
  · exact h.2.2.2 ("b", entryFreshW) (by decide)
      (Or.inr ⟨4000000, rfl, by decide⟩)

/-- C9 (code bug): the claimed cipher round-trip cannot even start under
the process-configured default key: `ENCRYPTION_KEY` falls back to
`'your-fallback-key'`, whose UTF-8 length is 17 bytes, and
`crypto.createCipheriv('aes-256-cbc', …)` requires exactly 32 key bytes,
so `encryptPassword` throws `ERR_CRYPTO_INVALID_KEYLEN` for **every**
password (and every block permutation and IV) instead of terminating
without error. -/
theorem encryptPassword_default_key_throws (E : List Nat → List Nat)
    (iv : List Nat) (password : String) :
    byteLength (ENCRYPTION_KEY none) = 17 ∧
    encryptPasswordModel E none iv password = .error .invalidKeyLength := by
  constructor
  · decide
  · unfold encryptPasswordModel
    rw [if_neg (by decide)]

/-- C10: when the cache misses (absent or expired entry) and the pool
acquisition or either metadata query throws, `getTableSchema` swallows the
error in its empty catch block: the call resolves with `undefined`
(`none`) — no error of any kind propagates to the caller — and the schema
cache is left unmodified. -/
theorem getTableSchema_error_swallowed (cache : List (String × CacheEntry))
    (now : Nat) (cid tname : String) (oracle : SchemaFetchOracle)
    (hmiss : mapGet cache (cid ++ ":" ++ tname) = none ∨
      ∃ e, mapGet cache (cid ++ ":" ++ tname) = some e ∧
        SCHEMA_CACHE_TTL ≤ now - e.timestamp)
    (herr : exceptOk oracle.poolRes = false ∨
      exceptOk oracle.describeRes = false ∨ exceptOk oracle.indexRes = false) :
    (getTableSchemaModel cache now cid tname oracle).result = none ∧
    (getTableSchemaModel cache now cid tname oracle).cache = cache := by
  rw [getTableSchemaModel_miss cache now cid tname oracle hmiss]
  cases hp : oracle.poolRes with
  | error e => simp [schemaFetchMiss, hp]
  | ok u =>
    cases hd : oracle.describeRes with
    | error e => simp [schemaFetchMiss, hp, hd]
    | ok cols =>
      cases hi : oracle.indexRes with
      | error e => simp [schemaFetchMiss, hp, hd, hi]
      | ok idxs =>
        exfalso
        rcases herr with h | h | h <;> simp [hp, hd, hi, exceptOk] at h

/-- An oracle whose pool acquisition fails. -/
def oracleErrW : SchemaFetchOracle :=
  ⟨.error "ECONNREFUSED", .error "x", .error "y"⟩

/-- Witness for C10: on an empty cache with a failing pool acquisition the
call resolves with `undefined` and the cache stays empty. -/
theorem getTableSchema_error_swallowed_witness :
    (getTableSchemaModel [] 5 "c" "t" oracleErrW).result = none ∧
    (getTableSchemaModel [] 5 "c" "t" oracleErrW).cache = [] :=
  getTableSchema_error_swallowed [] 5 "c" "t" oracleErrW (Or.inl rfl)
    (Or.inl rfl)

end MySQLConnector
